import Mathlib

/-!
Shallow embedding of the `mtt` time-tracking tool (src/main.rs) in Lean 4.

Modelling conventions:
* `chrono::DateTime<Utc>` timestamps are modelled as `Int` (nanoseconds since
  the epoch; only their additive/order structure matters to the program).
* `std::time::Duration` is modelled as `Nat` (total nanoseconds; it is
  non-negative by construction in `std`).
* `chrono::Duration::to_std().unwrap_or_default()` on the signed difference of
  two timestamps is `Int.toNat`: negative differences clamp to `0`.
* Rust `&mut self` methods become pure functions returning the new state;
  fallible methods return `Except AppError`, where an `error` result means the
  state was left untouched (the Rust code mutates nothing before erroring).
* `HashMap<String, Timer>` is modelled as an association list
  `List (String × Timer)`; the program never relies on hashing or key order.
* The serde/serde_json layer is modelled at the JSON value-tree level: a `Json`
  inductive together with encoders/decoders that follow the `#[derive]`d
  serde semantics (structs as objects with the declared field names, `Option`
  as `null`-or-value, `Vec` as an array, `Duration` as a `secs`/`nanos`
  object, and timestamps as leaf scalars).
-/

namespace Mtt

/-- `enum AppError` from src/main.rs. -/
inductive AppError where
  | timerAlreadyRunning
  | noTimerRunning
deriving DecidableEq, Repr

/-- `struct TimerRecord { start, end, comment }` (the `end` field is named
`end_` because `end` is a Lean keyword). -/
structure TimerRecord where
  start : Int
  end_ : Int
  comment : String
deriving DecidableEq, Repr

/-- `TimerRecord::new`. -/
def TimerRecord.new (start end_ : Int) (comment : String) : TimerRecord :=
  { start := start, end_ := end_, comment := comment }

/-- `TimerRecord::duration`: `(self.end - self.start).to_std().unwrap_or_default()`;
a record with `end < start` yields a zero duration. -/
def TimerRecord.duration (r : TimerRecord) : Nat :=
  (r.end_ - r.start).toNat

/-- `struct Timer { records, current_start }`. -/
structure Timer where
  records : List TimerRecord
  current_start : Option Int
deriving DecidableEq, Repr

/-- `impl Default for Timer`. -/
def Timer.default : Timer :=
  { records := [], current_start := none }

/-- `Timer::start_timer`. -/
def Timer.start_timer (t : Timer) (start_time : Int) : Except AppError Timer :=
  if t.current_start.isSome then
    .error .timerAlreadyRunning
  else
    .ok { t with current_start := some start_time }

/-- `Timer::stop_timer`: on success returns the appended record together with
the updated timer (the Rust code returns a reference to the record it just
pushed onto `records`). -/
def Timer.stop_timer (t : Timer) (stop_time : Int) (comment : String) :
    Except AppError (TimerRecord × Timer) :=
  match t.current_start with
  | some current_start =>
    let record := TimerRecord.new current_start stop_time comment
    .ok (record, { records := t.records ++ [record], current_start := none })
  | none => .error .noTimerRunning

/-- `Timer::total_duration`: `Duration::sum` over `records.iter().map(duration)`. -/
def Timer.total_duration (t : Timer) : Nat :=
  (t.records.map TimerRecord.duration).sum

/-- `Timer::is_running`. -/
def Timer.is_running (t : Timer) : Bool :=
  t.current_start.isSome

/-- `struct AppState { total, current_start, timers, active_timer }`. -/
structure AppState where
  total : Nat
  current_start : Option Int
  timers : List (String × Timer)
  active_timer : Option String
deriving DecidableEq, Repr

/-- `impl Default for AppState`. -/
def AppState.default : AppState :=
  { total := 0, current_start := none, timers := [], active_timer := none }

/-- `AppState::start_timer`. -/
def AppState.start_timer (s : AppState) (start_time : Int) : Except AppError AppState :=
  match s.current_start with
  | some _ => .error .timerAlreadyRunning
  | none => .ok { s with current_start := some start_time }

/-- `AppState::current_duration` (read-only). -/
def AppState.current_duration (s : AppState) (time : Int) : Except AppError Nat :=
  match s.current_start with
  | some start => .ok (time - start).toNat
  | none => .error .noTimerRunning

/-- `AppState::stop_timer`: `current_duration(stop_time)?` then
`total += duration; current_start = None`, returning the duration. -/
def AppState.stop_timer (s : AppState) (stop_time : Int) : Except AppError (Nat × AppState) :=
  match s.current_duration stop_time with
  | .error e => .error e
  | .ok duration =>
    .ok (duration, { s with total := s.total + duration, current_start := none })

/-- `AppState::is_timer_running`. -/
def AppState.is_timer_running (s : AppState) : Bool :=
  s.current_start.isSome

/-- `AppState::abort_timer`: total, sets `current_start = None` and nothing else. -/
def AppState.abort_timer (s : AppState) : AppState :=
  { s with current_start := none }

/-- The caller-side view of `Timer::start_timer` on a `&mut Timer`: the timer
contents after the call and whether it succeeded. On error the receiver is
unchanged, matching the Rust method, which returns before mutating anything. -/
def Timer.start_run (tm : Timer) (t : Int) : Timer × Bool :=
  match tm.start_timer t with
  | .ok tm' => (tm', true)
  | .error _ => (tm, false)

/-- The caller-side view of `Timer::stop_timer` on a `&mut Timer` (see
`Timer.start_run`). -/
def Timer.stop_run (tm : Timer) (t : Int) (c : String) : Timer × Bool :=
  match tm.stop_timer t c with
  | .ok (_, tm') => (tm', true)
  | .error _ => (tm, false)

/-- The state-mutating subcommands dispatched by `main` (`Show` only reads). -/
inductive AppOp where
  | start (t : Int)
  | stop (t : Int)
  | abort
  | reset
deriving DecidableEq, Repr

/-- One CLI invocation's effect on the state: the next state and whether the
operation succeeded, mirroring `main`'s dispatch (the `Err` branches print an
error and leave the state unchanged; `Reset` sets `total` to zero). -/
def AppState.run (s : AppState) : AppOp → AppState × Bool
  | .start t =>
    match s.start_timer t with
    | .ok s' => (s', true)
    | .error _ => (s, false)
  | .stop t =>
    match s.stop_timer t with
    | .ok (_, s') => (s', true)
    | .error _ => (s, false)
  | .abort => (s.abort_timer, true)
  | .reset => ({ s with total := 0 }, true)

/-! ### The serde_json layer, modelled at the JSON value-tree level -/

/-- A JSON value tree (`serde_json::Value`); timestamps appear as `num`
leaves (standing for their RFC 3339 rendering, which chrono's serde support
round-trips faithfully for `DateTime<Utc>`). -/
inductive Json where
  | null
  | bool (b : Bool)
  | num (n : Int)
  | str (s : String)
  | arr (elems : List Json)
  | obj (fields : List (String × Json))

/-- Field lookup in a JSON object, as serde's derived deserializers do. -/
def Json.getField : Json → String → Option Json
  | .obj fields, name => fields.lookup name
  | _, _ => none

/-- Serialize a timestamp. -/
def encodeTime (t : Int) : Json := .num t

/-- Deserialize a timestamp. -/
def decodeTime : Json → Option Int
  | .num n => some n
  | _ => none

/-- Serialize an optional timestamp (`Option` serializes as `null` or the value). -/
def encodeOptTime : Option Int → Json
  | none => .null
  | some t => encodeTime t

/-- Deserialize an optional timestamp. -/
def decodeOptTime : Json → Option (Option Int)
  | .null => some none
  | j => (decodeTime j).map some

/-- Serialize an optional string. -/
def encodeOptStr : Option String → Json
  | none => .null
  | some s => .str s

/-- Deserialize an optional string. -/
def decodeOptStr : Json → Option (Option String)
  | .null => some none
  | .str s => some (some s)
  | _ => none

/-- Serialize a `std::time::Duration`: serde renders it as an object with
`secs` and `nanos` fields. -/
def encodeDur (d : Nat) : Json :=
  .obj [("secs", .num (d / 1000000000 : Nat)), ("nanos", .num (d % 1000000000 : Nat))]

/-- Deserialize a `std::time::Duration` from its `secs`/`nanos` object. -/
def decodeDur (j : Json) : Option Nat :=
  match j.getField "secs", j.getField "nanos" with
  | some (.num secs), some (.num nanos) =>
    if 0 ≤ secs ∧ 0 ≤ nanos then some (secs.toNat * 1000000000 + nanos.toNat) else none
  | _, _ => none

/-- Serialize a `TimerRecord` (derived `Serialize`: object with the declared
field names in declaration order). -/
def TimerRecord.toJson (r : TimerRecord) : Json :=
  .obj [("start", encodeTime r.start), ("end", encodeTime r.end_), ("comment", .str r.comment)]

/-- Deserialize a `TimerRecord` (derived `Deserialize`: look up each field by name). -/
def TimerRecord.fromJson (j : Json) : Option TimerRecord :=
  match j.getField "start", j.getField "end", j.getField "comment" with
  | some js, some je, some (.str comment) =>
    match decodeTime js, decodeTime je with
    | some start, some end_ => some { start := start, end_ := end_, comment := comment }
    | _, _ => none
  | _, _, _ => none

/-- Serialize a `Timer`. -/
def Timer.toJson (t : Timer) : Json :=
  .obj [("records", .arr (t.records.map TimerRecord.toJson)),
        ("current_start", encodeOptTime t.current_start)]

/-- Deserialize a sequence element-by-element, failing if any element fails
(serde's `Vec` deserialization). -/
def decodeRecords : List Json → Option (List TimerRecord)
  | [] => some []
  | j :: js =>
    match TimerRecord.fromJson j, decodeRecords js with
    | some r, some rs => some (r :: rs)
    | _, _ => none

/-- Deserialize a `Timer`. -/
def Timer.fromJson (j : Json) : Option Timer :=
  match j.getField "records", j.getField "current_start" with
  | some (.arr recs), some jcs =>
    match decodeRecords recs, decodeOptTime jcs with
    | some records, some current_start =>
      some { records := records, current_start := current_start }
    | _, _ => none
  | _, _ => none

/-- Serialize the timer registry (`HashMap<String, Timer>` serializes as a
JSON object keyed by timer name). -/
def encodeTimers (timers : List (String × Timer)) : Json :=
  .obj (timers.map fun p => (p.1, p.2.toJson))

/-- Deserialize the entries of the timer registry entry-by-entry. -/
def decodeTimerEntries : List (String × Json) → Option (List (String × Timer))
  | [] => some []
  | (name, j) :: rest =>
    match Timer.fromJson j, decodeTimerEntries rest with
    | some t, some ts => some ((name, t) :: ts)
    | _, _ => none

/-- Deserialize the timer registry. -/
def decodeTimers : Json → Option (List (String × Timer))
  | .obj fields => decodeTimerEntries fields
  | _ => none

/-- Serialize an `AppState` (derived `Serialize`). -/
def AppState.toJson (s : AppState) : Json :=
  .obj [("total", encodeDur s.total),
        ("current_start", encodeOptTime s.current_start),
        ("timers", encodeTimers s.timers),
        ("active_timer", encodeOptStr s.active_timer)]

/-- Deserialize an `AppState` (derived `Deserialize`). -/
def AppState.fromJson (j : Json) : Option AppState :=
  match j.getField "total", j.getField "current_start",
        j.getField "timers", j.getField "active_timer" with
  | some jt, some jcs, some jtimers, some jat =>
    match decodeDur jt, decodeOptTime jcs, decodeTimers jtimers, decodeOptStr jat with
    | some total, some current_start, some timers, some active_timer =>
      some { total := total, current_start := current_start,
             timers := timers, active_timer := active_timer }
    | _, _, _, _ => none
  | _, _, _, _ => none

/-- `read_appstate`: the file-system read is modelled by an `Option Json`
argument — `none` when `File::open` fails (file absent), `some j` when the
file exists and contains the document `j`. A document that does not
deserialize is the `serde_json::Error` case. -/
def read_appstate (file : Option Json) : Except String AppState :=
  match file with
  | none => .ok AppState.default
  | some j =>
    match AppState.fromJson j with
    | some s => .ok s
    | none => .error "deserialization error"

/-- `write_appstate`: serializes the whole state to the (modelled) file. -/
def write_appstate (s : AppState) : Json :=
  s.toJson

/-! ### Round-trip lemmas for the serialization layer -/

theorem decodeOptTime_encodeOptTime (o : Option Int) : decodeOptTime (encodeOptTime o) = some o := by
  cases o <;> rfl

theorem decodeOptStr_encodeOptStr (o : Option String) : decodeOptStr (encodeOptStr o) = some o := by
  cases o <;> rfl

theorem decodeDur_encodeDur (d : Nat) : decodeDur (encodeDur d) = some d := by
  show (if (0:Int) ≤ ((d / 1000000000 : Nat) : Int) ∧ (0:Int) ≤ ((d % 1000000000 : Nat) : Int) then
      some (((d / 1000000000 : Nat) : Int).toNat * 1000000000 + ((d % 1000000000 : Nat) : Int).toNat)
    else none) = some d
  rw [if_pos ⟨Int.ofNat_nonneg _, Int.ofNat_nonneg _⟩]
  simp only [Int.toNat_natCast, Option.some.injEq]
  omega

theorem fromJson_toJson_record (r : TimerRecord) : TimerRecord.fromJson r.toJson = some r := rfl

theorem decodeRecords_map (l : List TimerRecord) :
    decodeRecords (l.map TimerRecord.toJson) = some l := by
  induction l with
  | nil => rfl
  | cons r rs ih => simp [decodeRecords, fromJson_toJson_record, ih]

theorem fromJson_toJson_timer (t : Timer) : Timer.fromJson t.toJson = some t := by
  show (match decodeRecords (t.records.map TimerRecord.toJson),
          decodeOptTime (encodeOptTime t.current_start) with
    | some records, some current_start => some { records := records, current_start := current_start }
    | _, _ => none) = some t
  rw [decodeRecords_map, decodeOptTime_encodeOptTime]

theorem decodeTimerEntries_map (l : List (String × Timer)) :
    decodeTimerEntries (l.map fun p => (p.1, p.2.toJson)) = some l := by
  induction l with
  | nil => rfl
  | cons p ps ih => simp [decodeTimerEntries, fromJson_toJson_timer, ih]

theorem decodeTimers_encodeTimers (l : List (String × Timer)) :
    decodeTimers (encodeTimers l) = some l :=
  decodeTimerEntries_map l

theorem fromJson_toJson_appstate (s : AppState) : AppState.fromJson s.toJson = some s := by
  show (match decodeDur (encodeDur s.total), decodeOptTime (encodeOptTime s.current_start),
          decodeTimers (encodeTimers s.timers), decodeOptStr (encodeOptStr s.active_timer) with
    | some total, some current_start, some timers, some active_timer =>
      some { total := total, current_start := current_start,
             timers := timers, active_timer := active_timer }
    | _, _, _, _ => none) = some s
  rw [decodeDur_encodeDur, decodeOptTime_encodeOptTime, decodeOptStr_encodeOptStr,
    decodeTimers_encodeTimers]

theorem isSome_false_iff {α : Type} (o : Option α) : (o.isSome = false) ↔ o = none := by
  cases o <;> simp

/-! ### The claims -/

/-- C1: for every timer state with `current_start` unset, `start_timer t`
followed by `stop_timer t2 c` with `t ≤ t2` appends exactly one new record
equal to `(t, t2, c)` to `records`, returns that appended record, leaves
`current_start` as `None`, and increases `total_duration` by exactly
`t2 - t` (the clamping in `duration` does not engage since `t ≤ t2`). -/
theorem claim_C1 (tm : Timer) (t t2 : Int) (c : String)
    (hidle : tm.current_start = none) (hle : t ≤ t2) :
    ∃ tm', tm.start_timer t = .ok tm' ∧
      tm'.stop_timer t2 c =
        .ok (TimerRecord.new t t2 c,
          { records := tm.records ++ [TimerRecord.new t t2 c], current_start := none }) ∧
      Timer.total_duration
          { records := tm.records ++ [TimerRecord.new t t2 c], current_start := none } =
        tm.total_duration + (t2 - t).toNat ∧
      ((t2 - t).toNat : Int) = t2 - t := by
  refine ⟨{ tm with current_start := some t }, ?_, rfl, ?_, ?_⟩
  · simp [Timer.start_timer, hidle]
  · simp [Timer.total_duration, TimerRecord.duration, TimerRecord.new]
  · omega

/-- Witness for C1 at the fresh timer with `t = 2`, `t2 = 5`, comment `"w"`. -/
theorem claim_C1_witness :
    Timer.default.current_start = none ∧ (2 : Int) ≤ 5 ∧
    (∃ tm', Timer.default.start_timer 2 = .ok tm' ∧
      tm'.stop_timer 5 "w" =
        .ok (TimerRecord.new 2 5 "w",
          { records := Timer.default.records ++ [TimerRecord.new 2 5 "w"], current_start := none }) ∧
      Timer.total_duration
          { records := Timer.default.records ++ [TimerRecord.new 2 5 "w"], current_start := none } =
        Timer.default.total_duration + ((5 - 2 : Int)).toNat ∧
      (((5 - 2 : Int)).toNat : Int) = (5 - 2 : Int)) :=
  ⟨rfl, by decide, claim_C1 Timer.default 2 5 "w" rfl (by decide)⟩

/-- C2: the timer lifecycle is a two-state machine over Idle
(`current_start = none`) and Running (`current_start = some _`): a fresh
`Timer` / `AppState` starts Idle; from Idle a `start` succeeds and yields
Running; the only operation taking Idle to Running is a successful `start`;
from Running a `stop` succeeds, emits the tracked value, and yields Idle;
at the `Timer` granularity a successful `stop_timer` emits exactly one new
record; `abort` always succeeds, yields Idle and emits nothing (`total` and
`timers` untouched); and the only operations taking Running to Idle are a
successful `stop` or `abort`. -/
theorem claim_C2 :
    Timer.default.is_running = false ∧
    AppState.default.is_timer_running = false ∧
    (∀ (s : AppState) (t : Int), s.is_timer_running = false →
      s.run (.start t) = ({ s with current_start := some t }, true) ∧
      ({ s with current_start := some t } : AppState).is_timer_running = true) ∧
    (∀ (s : AppState) (op : AppOp), s.is_timer_running = false →
      (s.run op).1.is_timer_running = true →
      ∃ t, op = .start t ∧ (s.run op).2 = true) ∧
    (∀ (s : AppState) (t : Int), s.is_timer_running = true →
      ∃ d, s.stop_timer t = .ok (d, (s.run (.stop t)).1) ∧
        (s.run (.stop t)).1.is_timer_running = false ∧ (s.run (.stop t)).2 = true) ∧
    (∀ (tm : Timer) (t : Int) (c : String), tm.is_running = true →
      ∃ r tm', tm.stop_timer t c = .ok (r, tm') ∧ tm'.records = tm.records ++ [r] ∧
        tm'.is_running = false) ∧
    (∀ s : AppState, s.run .abort = (s.abort_timer, true) ∧
      s.abort_timer.is_timer_running = false ∧ s.abort_timer.total = s.total ∧
      s.abort_timer.timers = s.timers) ∧
    (∀ (s : AppState) (op : AppOp), s.is_timer_running = true →
      (s.run op).1.is_timer_running = false →
      (∃ t, op = .stop t ∧ (s.run op).2 = true) ∨ op = .abort) := by
  refine ⟨rfl, rfl, ?_, ?_, ?_, ?_, ?_, ?_⟩
  · intro s t h
    have hcs : s.current_start = none := (isSome_false_iff _).mp h
    constructor
    · simp [AppState.run, AppState.start_timer, hcs]
    · rfl
  · intro s op hidle hrun
    have hcs : s.current_start = none := (isSome_false_iff _).mp hidle
    cases op with
    | start t =>
      refine ⟨t, rfl, ?_⟩
      simp [AppState.run, AppState.start_timer, hcs]
    | stop t =>
      exfalso
      have hr : s.run (.stop t) = (s, false) := by
        simp [AppState.run, AppState.stop_timer, AppState.current_duration, hcs]
      rw [hr] at hrun
      simp [AppState.is_timer_running, hcs] at hrun
    | abort =>
      exfalso
      simp [AppState.run, AppState.abort_timer, AppState.is_timer_running] at hrun
    | reset =>
      exfalso
      simp [AppState.run, AppState.is_timer_running, hcs] at hrun
  · intro s t h
    obtain ⟨t0, hcs⟩ := Option.isSome_iff_exists.mp h
    refine ⟨(t - t0).toNat, ?_, ?_, ?_⟩ <;>
      simp [AppState.run, AppState.stop_timer, AppState.current_duration,
        AppState.is_timer_running, hcs]
  · intro tm t c h
    obtain ⟨t0, hcs⟩ := Option.isSome_iff_exists.mp h
    refine ⟨TimerRecord.new t0 t c,
      { records := tm.records ++ [TimerRecord.new t0 t c], current_start := none },
      ?_, rfl, rfl⟩
    simp [Timer.stop_timer, hcs, TimerRecord.new]
  · intro s
    exact ⟨rfl, rfl, rfl, rfl⟩
  · intro s op hrun hidle
    obtain ⟨t0, hcs⟩ := Option.isSome_iff_exists.mp hrun
    cases op with
    | start t =>
      exfalso
      have hr : s.run (.start t) = (s, false) := by
        simp [AppState.run, AppState.start_timer, hcs]
      rw [hr] at hidle
      simp [AppState.is_timer_running, hcs] at hidle
    | stop t =>
      left
      refine ⟨t, rfl, ?_⟩
      simp [AppState.run, AppState.stop_timer, AppState.current_duration, hcs]
    | abort => right; rfl
    | reset =>
      exfalso
      simp [AppState.run, AppState.is_timer_running, hcs] at hidle

/-- Witness for C2: the transition conjuncts applied to concrete Idle and
Running states. -/
theorem claim_C2_witness :
    (AppState.default.run (.start 3) = ({ AppState.default with current_start := some 3 }, true) ∧
      ({ AppState.default with current_start := some 3 } : AppState).is_timer_running = true) ∧
    (∃ t, AppOp.start (3 : Int) = AppOp.start t ∧ (AppState.default.run (.start 3)).2 = true) ∧
    (∃ d, (AppState.mk 0 (some 2) [] none).stop_timer 7 =
        .ok (d, ((AppState.mk 0 (some 2) [] none).run (.stop 7)).1) ∧
      ((AppState.mk 0 (some 2) [] none).run (.stop 7)).1.is_timer_running = false ∧
      ((AppState.mk 0 (some 2) [] none).run (.stop 7)).2 = true) ∧
    (∃ r tm', (Timer.mk [] (some 2)).stop_timer 7 "c" = .ok (r, tm') ∧
      tm'.records = (Timer.mk [] (some 2)).records ++ [r] ∧ tm'.is_running = false) ∧
    ((∃ t, AppOp.abort = AppOp.stop t ∧ ((AppState.mk 0 (some 2) [] none).run .abort).2 = true) ∨
      AppOp.abort = AppOp.abort) :=
  ⟨claim_C2.2.2.1 AppState.default 3 rfl,
   claim_C2.2.2.2.1 AppState.default (.start 3) rfl rfl,
   claim_C2.2.2.2.2.1 (AppState.mk 0 (some 2) [] none) 7 rfl,
   claim_C2.2.2.2.2.2.1 (Timer.mk [] (some 2)) 7 "c" rfl,
   claim_C2.2.2.2.2.2.2.2 (AppState.mk 0 (some 2) [] none) .abort rfl rfl⟩

/-- C3: starting a timer whose `current_start` is already set fails with
`TimerAlreadyRunning` and leaves `current_start`, `records` (and, for
`AppState`, `total`) unchanged; stated both for `Timer::start_timer` and
`AppState::start_timer` together with the unchanged post-state of the call. -/
theorem claim_C3 :
    (∀ (tm : Timer) (t : Int), tm.is_running = true →
      tm.start_timer t = .error .timerAlreadyRunning ∧ tm.start_run t = (tm, false)) ∧
    (∀ (s : AppState) (t : Int), s.is_timer_running = true →
      s.start_timer t = .error .timerAlreadyRunning ∧ s.run (.start t) = (s, false)) := by
  constructor
  · intro tm t h
    have hs : tm.current_start.isSome = true := h
    have h1 : tm.start_timer t = .error .timerAlreadyRunning := by
      simp [Timer.start_timer, hs]
    exact ⟨h1, by simp [Timer.start_run, h1]⟩
  · intro s t h
    simp [AppState.is_timer_running, Option.isSome_iff_exists] at h
    obtain ⟨t0, h0⟩ := h
    have h1 : s.start_timer t = .error .timerAlreadyRunning := by
      simp [AppState.start_timer, h0]
    exact ⟨h1, by simp [AppState.run, h1]⟩

/-- Witness for C3 at concrete running states. -/
theorem claim_C3_witness :
    (Timer.mk [] (some 1)).is_running = true ∧
    ((Timer.mk [] (some 1)).start_timer 4 = .error .timerAlreadyRunning ∧
      (Timer.mk [] (some 1)).start_run 4 = (Timer.mk [] (some 1), false)) ∧
    (AppState.mk 0 (some 1) [] none).is_timer_running = true ∧
    ((AppState.mk 0 (some 1) [] none).start_timer 4 = .error .timerAlreadyRunning ∧
      (AppState.mk 0 (some 1) [] none).run (.start 4) = (AppState.mk 0 (some 1) [] none, false)) :=
  ⟨rfl, claim_C3.1 (Timer.mk [] (some 1)) 4 rfl,
   rfl, claim_C3.2 (AppState.mk 0 (some 1) [] none) 4 rfl⟩

/-- C4: stopping a timer whose `current_start` is `None` fails with
`NoTimerRunning` and leaves the entire state unchanged (no record appended,
`total` and `current_start` untouched), for both `Timer::stop_timer` and
`AppState::stop_timer`. -/
theorem claim_C4 :
    (∀ (tm : Timer) (t : Int) (c : String), tm.current_start = none →
      tm.stop_timer t c = .error .noTimerRunning ∧ tm.stop_run t c = (tm, false)) ∧
    (∀ (s : AppState) (t : Int), s.current_start = none →
      s.stop_timer t = .error .noTimerRunning ∧ s.run (.stop t) = (s, false)) := by
  constructor
  · intro tm t c h
    have h1 : tm.stop_timer t c = .error .noTimerRunning := by
      simp [Timer.stop_timer, h]
    exact ⟨h1, by simp [Timer.stop_run, h1]⟩
  · intro s t h
    have h1 : s.stop_timer t = .error .noTimerRunning := by
      simp [AppState.stop_timer, AppState.current_duration, h]
    exact ⟨h1, by simp [AppState.run, h1]⟩

/-- Witness for C4 at concrete idle states. -/
theorem claim_C4_witness :
    (Timer.mk [] none).current_start = none ∧
    ((Timer.mk [] none).stop_timer 4 "c" = .error .noTimerRunning ∧
      (Timer.mk [] none).stop_run 4 "c" = (Timer.mk [] none, false)) ∧
    AppState.default.current_start = none ∧
    (AppState.default.stop_timer 4 = .error .noTimerRunning ∧
      AppState.default.run (.stop 4) = (AppState.default, false)) :=
  ⟨rfl, claim_C4.1 (Timer.mk [] none) 4 "c" rfl,
   rfl, claim_C4.2 AppState.default 4 rfl⟩

/-- C5: a record with `end ≥ start` has `duration = end - start`; a record
with `end < start` has `duration = 0` (clamped, never an error). -/
theorem claim_C5 (r : TimerRecord) :
    (r.start ≤ r.end_ → (r.duration : Int) = r.end_ - r.start) ∧
    (r.end_ < r.start → r.duration = 0) := by
  constructor <;> intro h <;> simp [TimerRecord.duration] <;> omega

/-- Witness for C5: one record with `end ≥ start`, one with `end < start`. -/
theorem claim_C5_witness :
    ((1 : Int) ≤ 4 ∧ ((TimerRecord.new 1 4 "a").duration : Int) = (4 : Int) - 1) ∧
    ((2 : Int) < 9 ∧ (TimerRecord.new 9 2 "b").duration = 0) :=
  ⟨⟨by decide, (claim_C5 (TimerRecord.new 1 4 "a")).1 (by decide)⟩,
   ⟨by decide, (claim_C5 (TimerRecord.new 9 2 "b")).2 (by decide)⟩⟩

/-- C6: `total_duration` is the sum of each record's duration, and the value
is invariant under any permutation of the record list. -/
theorem claim_C6 :
    (∀ tm : Timer, tm.total_duration =
      tm.records.foldr (fun r acc => r.duration + acc) 0) ∧
    (∀ tm tm' : Timer, tm.records.Perm tm'.records →
      tm.total_duration = tm'.total_duration) := by
  constructor
  · intro tm
    simp [Timer.total_duration, List.sum_eq_foldr, List.foldr_map]
  · intro tm tm' h
    exact List.Perm.sum_eq (h.map TimerRecord.duration)

/-- Witness for C6 at a concrete two-record permutation. -/
theorem claim_C6_witness :
    ([TimerRecord.new 0 4 "a", TimerRecord.new 1 3 "b"].Perm
      [TimerRecord.new 1 3 "b", TimerRecord.new 0 4 "a"]) ∧
    (Timer.mk [TimerRecord.new 0 4 "a", TimerRecord.new 1 3 "b"] none).total_duration =
      (Timer.mk [TimerRecord.new 1 3 "b", TimerRecord.new 0 4 "a"] none).total_duration :=
  ⟨by decide,
   claim_C6.2 (Timer.mk [TimerRecord.new 0 4 "a", TimerRecord.new 1 3 "b"] none)
     (Timer.mk [TimerRecord.new 1 3 "b", TimerRecord.new 0 4 "a"] none) (by decide)⟩

/-- C7 counterexample: on the Idle default state the `Abort` command does NOT
fail — `AppState::abort_timer` returns unit, and the dispatched abort
operation reports success (`true`) and leaves the state unchanged, so the
claim that abort on an Idle timer fails with `NoTimerRunning` is false. -/
theorem claim_C7_counterexample :
    AppState.default.is_timer_running = false ∧
    AppState.default.run .abort = (AppState.default, true) := ⟨rfl, rfl⟩

/-- C7 (amended): requesting current-duration on a timer in the Idle state
fails with the `NoTimerRunning` error; requesting abort on an Idle timer does
not fail — `abort_timer` is total, the abort operation succeeds and leaves
the Idle state unchanged. -/
theorem claim_C7 (s : AppState) (t : Int) (h : s.current_start = none) :
    s.current_duration t = .error .noTimerRunning ∧ s.run .abort = (s, true) := by
  have habort : s.abort_timer = s := by
    cases s
    simp_all [AppState.abort_timer]
  exact ⟨by simp [AppState.current_duration, h], by simp [AppState.run, habort]⟩

/-- Witness for the amended C7 at the default (Idle) state. -/
theorem claim_C7_witness :
    AppState.default.current_start = none ∧
    (AppState.default.current_duration 5 = .error .noTimerRunning ∧
      AppState.default.run .abort = (AppState.default, true)) :=
  ⟨rfl, claim_C7 AppState.default 5 rfl⟩

/-- C8: serializing any `AppState` to the persisted JSON format and
deserializing the result yields the identical state (identical timer names,
record lists, `current_start` values and `active_timer`); in particular,
reading back a written state file succeeds with the same state. -/
theorem claim_C8 (s : AppState) :
    AppState.fromJson (AppState.toJson s) = some s ∧
    read_appstate (some (write_appstate s)) = .ok s := by
  have h := fromJson_toJson_appstate s
  exact ⟨h, by simp [read_appstate, write_appstate, h]⟩

/-- C9: loading the state file yields the default (empty) `AppState` without
error when the file is absent, and fails with a deserialization error when
the file exists but its document cannot be parsed as an `AppState`. -/
theorem claim_C9 :
    read_appstate none = .ok AppState.default ∧
    (∀ j : Json, AppState.fromJson j = none →
      read_appstate (some j) = .error "deserialization error") := by
  refine ⟨rfl, fun j h => ?_⟩
  simp [read_appstate, h]

/-- Witness for C9: `Json.null` is a concrete unparsable state document. -/
theorem claim_C9_witness :
    read_appstate none = .ok AppState.default ∧
    AppState.fromJson Json.null = none ∧
    read_appstate (some Json.null) = .error "deserialization error" :=
  ⟨claim_C9.1, rfl, claim_C9.2 Json.null rfl⟩

/-- C10: `AppState::abort_timer` is total and never returns an error: it sets
`current_start` to `None` and leaves `total`, `timers` and `active_timer`
unchanged; it is idempotent, and on an Idle state it is a complete no-op. -/
theorem claim_C10 (s : AppState) :
    s.abort_timer.current_start = none ∧
    s.abort_timer.total = s.total ∧
    s.abort_timer.timers = s.timers ∧
    s.abort_timer.active_timer = s.active_timer ∧
    s.abort_timer.abort_timer = s.abort_timer ∧
    (s.current_start = none → s.abort_timer = s) := by
  refine ⟨rfl, rfl, rfl, rfl, rfl, fun h => ?_⟩
  cases s
  simp_all [AppState.abort_timer]

/-- Witness for C10's no-op conjunct at the default (Idle) state. -/
theorem claim_C10_witness :
    AppState.default.current_start = none ∧
    AppState.default.abort_timer = AppState.default :=
  ⟨rfl, (claim_C10 AppState.default).2.2.2.2.2 rfl⟩

end Mtt
